import Mathlib

/-!
Shallow embedding of the cursored-pagination engine of `src/cursor.rs`
(the `Cursor` trait, the concrete `UserCursor` / `IDCursor` / `ListCursor`
page types, and the `CursorIter` struct with its `Stream::poll_next`,
`call`, `with_page_size` and `new` operations), plus the count-clamping
logic of `retweets_of` in `src/tweet/fun.rs`.

Asynchronous fetching is embedded by recording, in place of the Rust
future stored in `CursorIter::loader`, the `FetchRequest` that
`CursorIter::call` built when the future was created; polling that future
is modelled by consulting an external oracle (`Resolver`) mapping each
request to a poll outcome (still pending / a decoded page / an error).
-/

namespace EggMode

/-- Modelled from the spec: side-channel (rate-limit) metadata returned by the
transport collaborator alongside a page (`Response::rate_limit_status` lives in
the `common` module, which is not part of the provided sources; spec section 3
and the glossary describe it as an opaque rate-limit snapshot). -/
structure RateLimit where
  limit : Int
  remaining : Int
  reset : Int
deriving DecidableEq

/-- Modelled from the spec: the transport's response envelope pairing a decoded
payload with side-channel metadata (`Response` lives in the `common` module,
not in the provided sources; spec sections 2 and 6 describe it as "a page plus
side-channel metadata"). -/
structure Response (α : Type) where
  rate_limit_status : RateLimit
  response : α
deriving DecidableEq

/-- Modelled from the spec: an opaque transport/decode error (`error::Error` is
not part of the provided sources; spec section 7 treats the taxonomy as owned
by the collaborator and relayed opaquely by the core). -/
structure TwitterError where
  message : String
deriving DecidableEq

/-- Equality of `Except` values is decidable when it is for both components
(used to evaluate the concrete fixtures below). -/
instance {ε α : Type} [DecidableEq ε] [DecidableEq α] : DecidableEq (Except ε α) :=
  fun x y =>
    match x, y with
    | Except.ok a, Except.ok b =>
        if h : a = b then isTrue (by rw [h]) else isFalse (fun hh => h (Except.ok.inj hh))
    | Except.error a, Except.error b =>
        if h : a = b then isTrue (by rw [h]) else isFalse (fun hh => h (Except.error.inj hh))
    | Except.ok _, Except.error _ => isFalse (fun hh => Except.noConfusion hh)
    | Except.error _, Except.ok _ => isFalse (fun hh => Except.noConfusion hh)

/-- Modelled from the spec: the request-parameter collection assembled by the
out-of-scope request-assembly collaborator (`ParamList` lives in the `common`
module, not in the provided sources; spec section 6 says the core only
*appends* its two pagination parameters to the externally supplied base). -/
structure ParamList where
  params : List (String × String)
deriving DecidableEq

/-- Modelled from the spec: an empty parameter collection (`ParamList::new`). -/
def ParamList.new : ParamList := ⟨[]⟩

/-- Modelled from the spec: appends one named parameter (`ParamList::add_param`). -/
def ParamList.add_param (p : ParamList) (name value : String) : ParamList :=
  ⟨p.params ++ [(name, value)]⟩

/-- Modelled from the spec: appends the parameter when the value is present and
leaves the collection unchanged when it is absent (`ParamList::add_opt_param`,
per spec section 6: the pagination parameters are "omitted if absent"). -/
def ParamList.add_opt_param (p : ParamList) (name : String) (value : Option String) :
    ParamList :=
  match value with
  | none => p
  | some v => p.add_param name v

/-- First value bound to `name`, if any (lookup side of the parameter list). -/
def ParamList.lookup (p : ParamList) (name : String) : Option String :=
  (p.params.find? (fun q => q.fst == name)).map (fun q => q.snd)

/-- Modelled from the spec: `ParamList::extended_tweets` (from the `common`
module, not in the provided sources) appends one fixed parameter that is
independent of the pagination/count logic under verification. -/
def ParamList.extended_tweets (p : ParamList) : ParamList :=
  p.add_param "tweet_mode" "extended"

/-- Embeds `std::num::NonZeroI64::new`: `Some` of the value when nonzero, `None` at zero. -/
def NonZeroI64.new (x : Int) : Option Int :=
  if x = 0 then none else some x

/-- Embeds the `get` request that `CursorIter::call` builds
(src/cursor.rs line 320): the endpoint link, the auth token and the
assembled parameter list. -/
structure FetchRequest where
  link : String
  token : String
  params : ParamList
deriving DecidableEq

/-- Embeds `std::task::Poll`. -/
inductive Poll (α : Type) where
  | Ready : α → Poll α
  | Pending : Poll α
deriving DecidableEq

/-- The view of a page that `CursorIter`'s `Stream` implementation accesses
through the `Cursor` trait (src/cursor.rs lines 33-60): the
`previous_cursor_id` / `next_cursor_id` accessors and the `into_inner` item
list. Page ids (`Cursor::Id`, `NonZeroI64` at every concrete instance in the
source) are embedded as `Int`. -/
structure CursorPage (α : Type) where
  previous_cursor_id : Option Int
  next_cursor_id : Option Int
  into_inner : List α
deriving DecidableEq

/-- The oracle standing for the network: how a pending fetch (identified by
the request it was created from) resolves when polled. -/
def Resolver (α : Type) : Type :=
  FetchRequest → Poll (Except TwitterError (Response (CursorPage α)))

/-- Modelled from the spec: a user record (`user::TwitterUser` is an
out-of-scope domain entity, spec section 1; only the fields needed to have a
concrete inhabited item type are kept). -/
structure TwitterUser where
  id : Nat
  screen_name : String
deriving DecidableEq

/-- Modelled from the spec: a list record (`list::List`, out-of-scope domain
entity). -/
structure TwitterList where
  id : Nat
  name : String
deriving DecidableEq

/-- Embeds `UserCursor` (src/cursor.rs lines 68-76): raw `i64` wire fields
plus the page's users. -/
structure UserCursor where
  previous_cursor : Int
  next_cursor : Int
  users : List TwitterUser
deriving DecidableEq

/-- Embeds `impl Cursor for UserCursor`, `previous_cursor_id` (src/cursor.rs 82-84). -/
def UserCursor.previous_cursor_id (c : UserCursor) : Option Int :=
  NonZeroI64.new c.previous_cursor

/-- Embeds `impl Cursor for UserCursor`, `next_cursor_id` (src/cursor.rs 86-88). -/
def UserCursor.next_cursor_id (c : UserCursor) : Option Int :=
  NonZeroI64.new c.next_cursor

/-- Embeds `impl Cursor for UserCursor`, `into_inner` (src/cursor.rs 90-92). -/
def UserCursor.into_inner (c : UserCursor) : List TwitterUser :=
  c.users

/-- Embeds `IDCursor` (src/cursor.rs lines 101-109); the `u64` ids are
embedded as `Nat`. -/
structure IDCursor where
  previous_cursor : Int
  next_cursor : Int
  ids : List Nat
deriving DecidableEq

/-- Embeds `impl Cursor for IDCursor`, `previous_cursor_id` (src/cursor.rs 115-117). -/
def IDCursor.previous_cursor_id (c : IDCursor) : Option Int :=
  NonZeroI64.new c.previous_cursor

/-- Embeds `impl Cursor for IDCursor`, `next_cursor_id` (src/cursor.rs 119-121). -/
def IDCursor.next_cursor_id (c : IDCursor) : Option Int :=
  NonZeroI64.new c.next_cursor

/-- Embeds `impl Cursor for IDCursor`, `into_inner` (src/cursor.rs 123-125). -/
def IDCursor.into_inner (c : IDCursor) : List Nat :=
  c.ids

/-- Embeds `ListCursor` (src/cursor.rs lines 134-142). -/
structure ListCursor where
  previous_cursor : Int
  next_cursor : Int
  lists : List TwitterList
deriving DecidableEq

/-- Embeds `impl Cursor for ListCursor`, `previous_cursor_id` (src/cursor.rs 148-150). -/
def ListCursor.previous_cursor_id (c : ListCursor) : Option Int :=
  NonZeroI64.new c.previous_cursor

/-- Embeds `impl Cursor for ListCursor`, `next_cursor_id` (src/cursor.rs 152-154). -/
def ListCursor.next_cursor_id (c : ListCursor) : Option Int :=
  NonZeroI64.new c.next_cursor

/-- Embeds `impl Cursor for ListCursor`, `into_inner` (src/cursor.rs 156-158). -/
def ListCursor.into_inner (c : ListCursor) : List TwitterList :=
  c.lists

/-- The trait-level view of `UserCursor` as seen by the engine. -/
def UserCursor.toPage (c : UserCursor) : CursorPage TwitterUser :=
  ⟨c.previous_cursor_id, c.next_cursor_id, c.into_inner⟩

/-- The trait-level view of `IDCursor` as seen by the engine. -/
def IDCursor.toPage (c : IDCursor) : CursorPage Nat :=
  ⟨c.previous_cursor_id, c.next_cursor_id, c.into_inner⟩

/-- The trait-level view of `ListCursor` as seen by the engine. -/
def ListCursor.toPage (c : ListCursor) : CursorPage TwitterList :=
  ⟨c.previous_cursor_id, c.next_cursor_id, c.into_inner⟩

/-- Embeds `CursorIter<T>` (src/cursor.rs lines 252-282). `loader`
(`Option<FutureResponse<T>>` in the source) holds the request the pending
future was created from; `iter` (the boxed iterator of already-wrapped
responses) holds the not-yet-yielded wrapped items; `page_size` is the `i32`
field; tokens (`Option<T::Id>`) are `Option Int`. -/
structure CursorIter (α : Type) where
  link : String
  token : String
  params_base : Option ParamList
  page_size : Option Int
  previous_cursor : Option Int
  next_cursor : Option Int
  loader : Option FetchRequest
  iter : Option (List (Response α))
deriving DecidableEq

/-- Embeds `CursorIter::with_page_size` (src/cursor.rs lines 296-309). -/
def CursorIter.with_page_size (s : CursorIter α) (page_size : Int) : CursorIter α :=
  if s.page_size.isSome then
    { s with
      page_size := some page_size
      previous_cursor := none
      next_cursor := none
      loader := none
      iter := none }
  else
    s

/-- Embeds `CursorIter::call` (src/cursor.rs lines 315-322): base parameters
(empty when absent), then the starting-cursor parameter from `next_cursor`
(under the page type's `STARTING_CURSOR_PARAMETER_NAME`, passed here as
`sn`; default `"cursor"`), then the count parameter from `page_size` (under
`COUNT_PARAMETER_NAME`, passed as `cn`; default `"count"`). `map_string`
is `Option.map toString`. The receiver is borrowed immutably (`&self`) in the
source, so `call` is a pure function of the state. -/
def CursorIter.call (cn sn : String) (s : CursorIter α) : FetchRequest :=
  { link := s.link
    token := s.token
    params :=
      ((s.params_base.getD ParamList.new).add_opt_param sn
          (s.next_cursor.map (fun t => toString t))).add_opt_param cn
        (s.page_size.map (fun n => toString n)) }

/-- Embeds `CursorIter::new` (src/cursor.rs lines 328-344). -/
def CursorIter.new (link tok : String) (params_base : Option ParamList)
    (page_size : Option Int) : CursorIter α :=
  { link := link
    token := tok
    params_base := params_base
    page_size := page_size
    previous_cursor := none
    next_cursor := none
    loader := none
    iter := none }

/-- Embeds the `if let Some(mut fut) = self.loader.take()` branch of
`CursorIter::poll_next` (src/cursor.rs lines 355-381), applied to the state
after the `take()` (so `s.loader` is already `none` here) and to the taken
future `fut`. On `Pending` the future is stored back; on success the tokens
are replaced by the page's, the items are wrapped with the page's rate-limit
snapshot, the first wrapped item (if any) is yielded and the rest buffered —
an empty page yields the end-of-stream signal `Ready none`; on failure the
error is yielded and nothing else changes. -/
def poll_loader (resolve : Resolver α) (s : CursorIter α) (fut : FetchRequest) :
    Poll (Option (Except TwitterError (Response α))) × CursorIter α :=
  match resolve fut with
  | Poll.Pending =>
      (Poll.Pending, { s with loader := some fut })
  | Poll.Ready (Except.ok resp) =>
      let s1 := { s with
        previous_cursor := resp.response.previous_cursor_id
        next_cursor := resp.response.next_cursor_id }
      let rate := resp.rate_limit_status
      match resp.response.into_inner.map (fun item => Response.mk rate item) with
      | [] => (Poll.Ready none, { s1 with iter := some [] })
      | first :: rest =>
          (Poll.Ready (some (Except.ok first)), { s1 with iter := some rest })
  | Poll.Ready (Except.error e) =>
      (Poll.Ready (some (Except.error e)), s)

/-- Embeds `CursorIter::poll_next` (src/cursor.rs lines 354-394). The
source's tail recursion after `self.loader = Some(Box::pin(self.call()))`
immediately re-enters the loader branch, so it is inlined as a direct
`poll_loader` application to the freshly built request. -/
def poll_next (cn sn : String) (resolve : Resolver α) (s : CursorIter α) :
    Poll (Option (Except TwitterError (Response α))) × CursorIter α :=
  match s.loader with
  | some fut => poll_loader resolve { s with loader := none } fut
  | none =>
    match s.iter with
    | some (item :: rest) =>
        (Poll.Ready (some (Except.ok item)), { s with iter := some rest })
    | some [] =>
        if s.next_cursor.isNone then
          (Poll.Ready none, s)
        else
          poll_loader resolve s (s.call cn sn)
    | none =>
        poll_loader resolve s (s.call cn sn)

/-- The request `call` builds, written out as a function of the fields it
reads (everything except `previous_cursor` / `loader` / `iter`); definitionally
equal to `CursorIter.call` applied to any state with those field values. -/
def mkReq (cn sn link tok : String) (pb : Option ParamList) (ps : Option Int)
    (c : Option Int) : FetchRequest :=
  { link := link
    token := tok
    params :=
      ((pb.getD ParamList.new).add_opt_param sn
          (c.map (fun t => toString t))).add_opt_param cn
        (ps.map (fun n => toString n)) }

/-- One observable event of driving the `Stream`: a yielded wrapped item, a
yielded error, the end-of-sequence signal, or a suspension. -/
inductive StreamEvent (α : Type) where
  | item : Response α → StreamEvent α
  | failure : TwitterError → StreamEvent α
  | ended : StreamEvent α
  | pending : StreamEvent α
deriving DecidableEq

/-- Drives `poll_next` repeatedly (up to `fuel` polls), recording each pull's
outcome, and stops at the first end-of-sequence signal — exactly how a
`Stream` consumer that polls until `Ready(None)` observes the engine. -/
def runStream (cn sn : String) (resolve : Resolver α) :
    Nat → CursorIter α → List (StreamEvent α)
  | 0, _ => []
  | fuel + 1, s =>
    match poll_next cn sn resolve s with
    | (Poll.Ready (some (Except.ok r)), s') =>
        StreamEvent.item r :: runStream cn sn resolve fuel s'
    | (Poll.Ready (some (Except.error e)), s') =>
        StreamEvent.failure e :: runStream cn sn resolve fuel s'
    | (Poll.Ready none, _) => [StreamEvent.ended]
    | (Poll.Pending, s') => StreamEvent.pending :: runStream cn sn resolve fuel s'

/-- One page of a scripted server run: the token the page is requested with
(`none` for the initial request of a fresh engine), the page's
previous-token, the side-channel metadata observed at fetch time, and the
page's ordered item list. -/
structure ScriptPage (α : Type) where
  key : Option Int
  prev : Option Int
  rate : RateLimit
  items : List α
deriving DecidableEq

/-- A chain of scripted pages. -/
abbrev PageScript (α : Type) : Type :=
  List (ScriptPage α)

/-- The token the next page of the script is requested with. -/
def nextKey : PageScript α → Option Int
  | [] => none
  | e :: _ => e.key

/-- The resolver answers every request of the script synchronously with the
corresponding page, whose next-token is the following entry's request token
(absent for the last page); every non-last page advertises a present
next-token. -/
def ChainAt (resolve : Resolver α) (mk : Option Int → FetchRequest) :
    PageScript α → Prop
  | [] => True
  | e :: rest =>
      resolve (mk e.key)
          = Poll.Ready (Except.ok ⟨e.rate, ⟨e.prev, nextKey rest, e.items⟩⟩)
      ∧ (rest ≠ [] → (nextKey rest).isSome = true)
      ∧ ChainAt resolve mk rest

/-- Every page of the script except possibly the last has a nonempty item
list. -/
def nonlastNonempty : PageScript α → Prop
  | [] => True
  | _ :: [] => True
  | e :: r :: rs => e.items ≠ [] ∧ nonlastNonempty (r :: rs)

/-- Total number of items across the script's pages. -/
def totalItems (script : PageScript α) : Nat :=
  (script.map (fun e => e.items.length)).sum

/-- The event sequence the specification's forward-progress property
predicts: the concatenation of all pages' items in page order and in-page
order, each wrapped with its own page's metadata, followed by the
end-of-sequence signal. -/
def expectedEvents (script : PageScript α) : List (StreamEvent α) :=
  (script.map
      (fun e => e.items.map (fun a => StreamEvent.item ⟨e.rate, a⟩))).flatten
    ++ [StreamEvent.ended]

/-- Reachability invariant of the engine: whenever a fetch is in flight, the
buffered iterator is either not yet created or fully drained, and in the
drained case a next-token is present (the fetch was started because of it). -/
def loaderInv (s : CursorIter α) : Prop :=
  ∀ fut, s.loader = some fut →
    s.iter = none ∨ (s.iter = some [] ∧ s.next_cursor.isSome = true)

/-- Embeds the parameter list that `retweets_of` builds
(src/tweet/fun.rs lines 31-45): `ParamList::new().extended_tweets()` plus a
`"count"` parameter that is clamped to `100` when the `u32` argument is `0`
or greater than `100`. -/
def retweets_of_params (count : Nat) : ParamList :=
  ParamList.new.extended_tweets.add_param "count"
    (toString (if count = 0 ∨ 100 < count then 100 else count))

/-- Fixed rate-limit snapshot used by the concrete test fixtures. -/
def rlW : RateLimit := ⟨15, 14, 1000⟩

/-- A second, distinct rate-limit snapshot. -/
def rlW2 : RateLimit := ⟨15, 13, 1001⟩

/-- Concrete fixture: the request a fresh engine (`lnk`/`tk`, no base
parameters, no page size) issues for its first page. -/
def reqW0 : FetchRequest := mkReq "count" "cursor" "lnk" "tk" none none none

/-- Concrete fixture: the request the same engine issues for the page at
token `7`. -/
def reqW1 : FetchRequest := mkReq "count" "cursor" "lnk" "tk" none none (some 7)

/-- Concrete fixture: a synchronous server whose first page is empty but
carries next-token `7`, and whose page at token `7` holds the single item
`42` and no next-token. -/
def resolveW : Resolver Nat := fun req =>
  if req = reqW0 then Poll.Ready (Except.ok ⟨rlW, ⟨none, some 7, []⟩⟩)
  else if req = reqW1 then Poll.Ready (Except.ok ⟨rlW, ⟨none, none, [42]⟩⟩)
  else Poll.Pending

/-- The script served by `resolveW`: an empty first page (with a present
next-token) followed by a one-item last page. -/
def scriptW : PageScript Nat :=
  [⟨none, none, rlW, []⟩, ⟨some 7, none, rlW, [42]⟩]

/-- Concrete fixture: a synchronous server serving two nonempty pages
(items `1, 2` then `5`), carrying distinct rate-limit snapshots. -/
def resolveV : Resolver Nat := fun req =>
  if req = reqW0 then Poll.Ready (Except.ok ⟨rlW, ⟨none, some 7, [1, 2]⟩⟩)
  else if req = reqW1 then Poll.Ready (Except.ok ⟨rlW2, ⟨some 3, none, [5]⟩⟩)
  else Poll.Pending

/-- The script served by `resolveV`. -/
def scriptV : PageScript Nat :=
  [⟨none, none, rlW, [1, 2]⟩, ⟨some 7, some 3, rlW2, [5]⟩]

/-- Concrete fixture: an engine with a fetch in flight (request `reqW1`,
stored tokens `previous = some 3`, `next = some 7`, drained buffer). -/
def sPend : CursorIter Nat :=
  { link := "lnk"
    token := "tk"
    params_base := none
    page_size := none
    previous_cursor := some 3
    next_cursor := some 7
    loader := some reqW1
    iter := some [] }

/-- Concrete fixture: a server that answers every poll with `Pending`. -/
def resolvePending : Resolver Nat := fun _ => Poll.Pending

/-- Concrete fixture: a server that fails every fetch with a transport
error. -/
def resolveErr : Resolver Nat := fun _ =>
  Poll.Ready (Except.error ⟨"connection reset"⟩)

/-- Concrete fixture: a server resolving `reqW1` to an empty page that still
carries next-token `9`. -/
def resolveEmptyNext : Resolver Nat := fun req =>
  if req = reqW1 then Poll.Ready (Except.ok ⟨rlW, ⟨some 2, some 9, []⟩⟩)
  else Poll.Pending

/-- Concrete fixture: a server resolving `reqW1` to the two-item page
`[10, 20]` with next-token `11`. -/
def resolveTwo : Resolver Nat := fun req =>
  if req = reqW1 then Poll.Ready (Except.ok ⟨rlW2, ⟨some 2, some 11, [10, 20]⟩⟩)
  else Poll.Pending

/-- Concrete fixture: an engine supporting page sizing (`page_size = some 20`)
that has already advanced past its first page. -/
def sSized : CursorIter Nat :=
  { link := "lnk"
    token := "tk"
    params_base := some ⟨[("id", "77")]⟩
    page_size := some 20
    previous_cursor := some 3
    next_cursor := some 7
    loader := none
    iter := some [⟨rlW, 42⟩] }

/-- Concrete fixture: the same engine shape constructed without page sizing
(`page_size = none`). -/
def sUnsized : CursorIter Nat :=
  { sSized with page_size := none }

/-- Lemma: `call` reads only the immutable request ingredients and `next_cursor`. -/
theorem call_eq_mkReq (cn sn : String) (s : CursorIter α) :
    s.call cn sn = mkReq cn sn s.link s.token s.params_base s.page_size s.next_cursor :=
  rfl

theorem totalItems_nil : totalItems ([] : PageScript α) = 0 :=
  rfl

theorem totalItems_cons (e : ScriptPage α) (rest : PageScript α) :
    totalItems (e :: rest) = e.items.length + totalItems rest := by
  simp [totalItems]

theorem expectedEvents_nil : expectedEvents ([] : PageScript α) = [StreamEvent.ended] :=
  rfl

theorem expectedEvents_cons (e : ScriptPage α) (rest : PageScript α) :
    expectedEvents (e :: rest)
      = e.items.map (fun a => StreamEvent.item ⟨e.rate, a⟩) ++ expectedEvents rest := by
  simp [expectedEvents]

theorem nonlastNonempty_tail (e : ScriptPage α) (rest : PageScript α)
    (h : nonlastNonempty (e :: rest)) : nonlastNonempty rest := by
  cases rest with
  | nil => trivial
  | cons r rs => exact h.2

/-- C5. For each concrete page type — `UserCursor`, `IDCursor` and
`ListCursor` — a raw integer token field of zero decodes to an absent token
from both the previous-cursor and next-cursor accessors, and a nonzero raw
value decodes to a present token equal to that value. -/
theorem cursor_zero_token_collapsing (p n : Int) (us : List TwitterUser)
    (ids : List Nat) (ls : List TwitterList) :
    (p = 0 → (UserCursor.mk p n us).previous_cursor_id = none) ∧
    (p ≠ 0 → (UserCursor.mk p n us).previous_cursor_id = some p) ∧
    (n = 0 → (UserCursor.mk p n us).next_cursor_id = none) ∧
    (n ≠ 0 → (UserCursor.mk p n us).next_cursor_id = some n) ∧
    (p = 0 → (IDCursor.mk p n ids).previous_cursor_id = none) ∧
    (p ≠ 0 → (IDCursor.mk p n ids).previous_cursor_id = some p) ∧
    (n = 0 → (IDCursor.mk p n ids).next_cursor_id = none) ∧
    (n ≠ 0 → (IDCursor.mk p n ids).next_cursor_id = some n) ∧
    (p = 0 → (ListCursor.mk p n ls).previous_cursor_id = none) ∧
    (p ≠ 0 → (ListCursor.mk p n ls).previous_cursor_id = some p) ∧
    (n = 0 → (ListCursor.mk p n ls).next_cursor_id = none) ∧
    (n ≠ 0 → (ListCursor.mk p n ls).next_cursor_id = some n) := by
  refine ⟨fun h => ?_, fun h => ?_, fun h => ?_, fun h => ?_, fun h => ?_, fun h => ?_,
    fun h => ?_, fun h => ?_, fun h => ?_, fun h => ?_, fun h => ?_, fun h => ?_⟩ <;>
    simp [UserCursor.previous_cursor_id, UserCursor.next_cursor_id,
      IDCursor.previous_cursor_id, IDCursor.next_cursor_id,
      ListCursor.previous_cursor_id, ListCursor.next_cursor_id,
      NonZeroI64.new, h]

theorem cursor_zero_token_collapsing_witness :
    (UserCursor.mk 0 3 []).previous_cursor_id = none ∧
    (UserCursor.mk 0 3 []).next_cursor_id = some 3 ∧
    (IDCursor.mk 0 3 []).previous_cursor_id = none ∧
    (IDCursor.mk 0 3 []).next_cursor_id = some 3 ∧
    (ListCursor.mk 0 3 []).previous_cursor_id = none ∧
    (ListCursor.mk 0 3 []).next_cursor_id = some 3 := by
  obtain ⟨u1, _, _, u4, i1, _, _, i4, l1, _, _, l4⟩ :=
    cursor_zero_token_collapsing 0 3 [] [] []
  exact ⟨u1 rfl, u4 (by decide), i1 rfl, i4 (by decide), l1 rfl, l4 (by decide)⟩

/-- C7. On an engine constructed without page sizing (`page_size = None`),
`with_page_size` is a complete no-op: the receiver is returned unchanged,
with `page_size` still absent and tokens, buffer and in-flight fetch
untouched. -/
theorem with_page_size_noop (s : CursorIter α) (n : Int)
    (h : s.page_size = none) :
    s.with_page_size n = s := by
  simp [CursorIter.with_page_size, h]

theorem with_page_size_noop_witness : sUnsized.with_page_size 50 = sUnsized :=
  with_page_size_noop sUnsized 50 rfl

/-- C6. On an engine constructed with page sizing supported (`page_size`
present), `with_page_size n` sets `page_size` to `n`, resets both tokens to
absent, discards the buffered items and the in-flight fetch, and keeps the
endpoint/credentials/base parameters; the next pull therefore starts a fresh
fetch whose request carries the count parameter `n` and no starting-cursor
parameter. -/
theorem with_page_size_reset (cn sn : String) (s : CursorIter α) (n : Int)
    (h : s.page_size.isSome = true) :
    (s.with_page_size n).page_size = some n ∧
    (s.with_page_size n).previous_cursor = none ∧
    (s.with_page_size n).next_cursor = none ∧
    (s.with_page_size n).loader = none ∧
    (s.with_page_size n).iter = none ∧
    (s.with_page_size n).link = s.link ∧
    (s.with_page_size n).token = s.token ∧
    (s.with_page_size n).params_base = s.params_base ∧
    (∀ resolve : Resolver α,
      poll_next cn sn resolve (s.with_page_size n)
        = poll_loader resolve (s.with_page_size n)
            ((s.with_page_size n).call cn sn)) ∧
    ((s.with_page_size n).call cn sn).params
      = (s.params_base.getD ParamList.new).add_param cn (toString n) := by
  have hs : s.with_page_size n
      = { s with
          page_size := some n
          previous_cursor := none
          next_cursor := none
          loader := none
          iter := none } := by
    simp [CursorIter.with_page_size, h]
  refine ⟨?_, ?_, ?_, ?_, ?_, ?_, ?_, ?_, fun resolve => ?_, ?_⟩ <;>
    rw [hs] <;>
    simp [poll_next, CursorIter.call, ParamList.add_opt_param]

theorem with_page_size_reset_witness :
    (sSized.with_page_size 50).page_size = some 50 ∧
    (sSized.with_page_size 50).next_cursor = none ∧
    (sSized.with_page_size 50).iter = none ∧
    poll_next "count" "cursor" resolvePending (sSized.with_page_size 50)
      = poll_loader resolvePending (sSized.with_page_size 50)
          ((sSized.with_page_size 50).call "count" "cursor") ∧
    ((sSized.with_page_size 50).call "count" "cursor").params
      = (sSized.params_base.getD ParamList.new).add_param "count"
          (toString (50 : Int)) := by
  obtain ⟨h1, h2, h3, h4, h5, h6, h7, h8, h9, h10⟩ :=
    with_page_size_reset "count" "cursor" sSized 50 rfl
  exact ⟨h1, h3, h5, h9 resolvePending, h10⟩

/-- C8. `call` builds a request against the engine's endpoint and
credentials whose parameters are exactly the base parameters, followed by
the starting-cursor parameter (under the page type's configured name)
exactly when `next_cursor` is present, followed by the count parameter
exactly when `page_size` is present; being a `&self` borrow in the source,
it is embedded as a pure function of the state, so no engine state changes. -/
theorem call_builds_params (cn sn : String) (s : CursorIter α) :
    (s.call cn sn).link = s.link ∧
    (s.call cn sn).token = s.token ∧
    (s.call cn sn).params.params
      = (s.params_base.getD ParamList.new).params
        ++ (s.next_cursor.elim [] (fun t => [(sn, toString t)]))
        ++ (s.page_size.elim [] (fun m => [(cn, toString m)])) := by
  refine ⟨rfl, rfl, ?_⟩
  cases hnc : s.next_cursor <;> cases hps : s.page_size <;>
    simp [CursorIter.call, ParamList.add_opt_param, ParamList.add_param, hnc, hps]

/-- C10. `retweets_of` sends a `count` request parameter of `100` when the
`u32` argument is `0` or greater than `100`, and the argument itself
otherwise. -/
theorem retweets_of_count_clamped (count : Nat) (h : count < 2 ^ 32) :
    ((count = 0 ∨ 100 < count) →
      (retweets_of_params count).lookup "count" = some "100") ∧
    (count ≠ 0 → count ≤ 100 →
      (retweets_of_params count).lookup "count" = some (toString count)) := by
  have hl : (retweets_of_params count).lookup "count"
      = some (toString (if count = 0 ∨ 100 < count then 100 else count)) := by
    simp [retweets_of_params, ParamList.lookup, ParamList.extended_tweets,
      ParamList.add_param, ParamList.new, List.find?]
  constructor
  · intro hc
    rw [hl, if_pos hc]
    rfl
  · intro h0 h100
    rw [hl, if_neg (by omega)]

theorem retweets_of_count_clamped_witness :
    (retweets_of_params 0).lookup "count" = some "100" ∧
    (retweets_of_params 101).lookup "count" = some "100" ∧
    (retweets_of_params 37).lookup "count" = some "37" := by
  refine ⟨(retweets_of_count_clamped 0 (by norm_num)).1 (Or.inl rfl),
    (retweets_of_count_clamped 101 (by norm_num)).1 (Or.inr (by norm_num)), ?_⟩
  have h := (retweets_of_count_clamped 37 (by norm_num)).2 (by norm_num) (by norm_num)
  simpa using h

/-- A `poll_loader` step from a state with no stored loader and a
none-or-drained buffer re-establishes the reachability invariant. -/
theorem poll_loader_loaderInv (resolve : Resolver α) (s : CursorIter α)
    (fut : FetchRequest) (hld : s.loader = none)
    (hinv : s.iter = none ∨ (s.iter = some [] ∧ s.next_cursor.isSome = true)) :
    loaderInv (poll_loader resolve s fut).2 := by
  intro fut' hf'
  cases hres : resolve fut with
  | Pending =>
      simp only [poll_loader, hres] at hf' ⊢
      exact hinv
  | Ready r =>
    cases r with
    | ok resp =>
        cases hpit : resp.response.into_inner.map
            (fun item => Response.mk resp.rate_limit_status item) with
        | nil => simp [poll_loader, hres, hpit, hld] at hf'
        | cons a rest => simp [poll_loader, hres, hpit, hld] at hf'
    | error e =>
        simp only [poll_loader, hres] at hf'
        rw [hld] at hf'
        cases hf'

/-- Preservation: `poll_next` keeps the reachability invariant: it never leaves a
pending fetch behind together with an undrained buffer or an absent
next-token-after-drain. -/
theorem poll_next_preserves_loaderInv (cn sn : String) (resolve : Resolver α)
    (s : CursorIter α) (h : loaderInv s) :
    loaderInv (poll_next cn sn resolve s).2 := by
  obtain ⟨l, tk, pb, ps, pc, nc, ld, it⟩ := s
  cases ld with
  | some fut =>
      have hs := h fut rfl
      exact poll_loader_loaderInv resolve _ fut rfl (by simpa using hs)
  | none =>
    cases it with
    | none =>
        exact poll_loader_loaderInv resolve _ _ rfl (Or.inl rfl)
    | some buf =>
      cases buf with
      | cons r rest =>
          intro fut' hf'
          simp [poll_next] at hf'
      | nil =>
        by_cases hnc : nc.isNone = true
        · intro fut' hf'
          simp [poll_next, hnc] at hf'
        · have : poll_next cn sn resolve
                (⟨l, tk, pb, ps, pc, nc, none, some []⟩ : CursorIter α)
              = poll_loader resolve
                  (⟨l, tk, pb, ps, pc, nc, none, some []⟩ : CursorIter α)
                  (CursorIter.call cn sn
                    (⟨l, tk, pb, ps, pc, nc, none, some []⟩ : CursorIter α)) := by
            simp [poll_next, hnc]
          rw [this]
          exact poll_loader_loaderInv resolve _ _ rfl
            (Or.inr ⟨rfl, by cases nc <;> simp_all⟩)

/-- A freshly constructed engine satisfies the reachability invariant. -/
theorem new_loaderInv (link tok : String) (pb : Option ParamList)
    (ps : Option Int) : loaderInv (CursorIter.new (α := α) link tok pb ps) := by
  intro fut hf
  simp [CursorIter.new] at hf

/-- C3. While a fetch is pending, a pull leaves the engine exactly as it
was — the same pending request stays stored — and the following pull polls
that same stored request (it dispatches through `poll_loader` on the stored
request, never building a new one via `call`), so a single fetch serves both
pulls. -/
theorem pending_fetch_not_duplicated (cn sn : String)
    (resolve resolve2 : Resolver α) (s : CursorIter α) (fut : FetchRequest)
    (h1 : s.loader = some fut) (h2 : resolve fut = Poll.Pending) :
    poll_next cn sn resolve s = (Poll.Pending, s) ∧
    poll_next cn sn resolve2 s
      = poll_loader resolve2 { s with loader := none } fut := by
  obtain ⟨l, tk, pb, ps, pc, nc, ld, it⟩ := s
  obtain rfl : ld = some fut := h1
  constructor
  · simp [poll_next, poll_loader, h2]
  · simp [poll_next]

theorem pending_fetch_not_duplicated_witness :
    poll_next "count" "cursor" resolvePending sPend = (Poll.Pending, sPend) ∧
    poll_next "count" "cursor" resolveTwo sPend
      = poll_loader resolveTwo { sPend with loader := none } reqW1 :=
  pending_fetch_not_duplicated "count" "cursor" resolvePending resolveTwo
    sPend reqW1 rfl rfl

/-- C2. When the pending fetch resolves to an error, that pull yields
exactly that error; `previous_cursor`, `next_cursor`, `page_size` and the
buffer are left exactly as before the attempt (only the completed future is
dropped); and — in every state the engine's operations can reach, i.e. with
a none-or-drained buffer per `loaderInv` — the next pull starts a fetch
built by `call` from those same unchanged tokens. -/
theorem error_does_not_advance (cn sn : String) (resolve resolve2 : Resolver α)
    (s : CursorIter α) (fut : FetchRequest) (e : TwitterError)
    (h1 : s.loader = some fut)
    (h2 : resolve fut = Poll.Ready (Except.error e))
    (h3 : s.iter = none ∨ (s.iter = some [] ∧ s.next_cursor.isSome = true)) :
    (poll_next cn sn resolve s).1 = Poll.Ready (some (Except.error e)) ∧
    (poll_next cn sn resolve s).2.previous_cursor = s.previous_cursor ∧
    (poll_next cn sn resolve s).2.next_cursor = s.next_cursor ∧
    (poll_next cn sn resolve s).2.page_size = s.page_size ∧
    (poll_next cn sn resolve s).2.iter = s.iter ∧
    (poll_next cn sn resolve s).2.loader = none ∧
    poll_next cn sn resolve2 (poll_next cn sn resolve s).2
      = poll_loader resolve2 (poll_next cn sn resolve s).2
          ((poll_next cn sn resolve s).2.call cn sn) ∧
    (poll_next cn sn resolve s).2.call cn sn = s.call cn sn := by
  obtain ⟨l, tk, pb, ps, pc, nc, ld, it⟩ := s
  obtain rfl : ld = some fut := h1
  rcases h3 with h3 | ⟨h3, hnc⟩
  · obtain rfl : it = none := h3
    refine ⟨?_, ?_, ?_, ?_, ?_, ?_, ?_, ?_⟩ <;>
      simp [poll_next, poll_loader, h2, CursorIter.call]
  · obtain rfl : it = some [] := h3
    obtain ⟨t, ht⟩ := Option.isSome_iff_exists.mp hnc
    obtain rfl : nc = some t := ht
    refine ⟨?_, ?_, ?_, ?_, ?_, ?_, ?_, ?_⟩ <;>
      simp [poll_next, poll_loader, h2, CursorIter.call]

theorem error_does_not_advance_witness :
    (poll_next "count" "cursor" resolveErr sPend).1
      = Poll.Ready (some (Except.error ⟨"connection reset"⟩)) ∧
    (poll_next "count" "cursor" resolveErr sPend).2.previous_cursor = some 3 ∧
    (poll_next "count" "cursor" resolveErr sPend).2.next_cursor = some 7 ∧
    (poll_next "count" "cursor" resolveErr sPend).2.call "count" "cursor"
      = sPend.call "count" "cursor" := by
  obtain ⟨a, b, c, d, e', f, g, h⟩ :=
    error_does_not_advance "count" "cursor" resolveErr resolveTwo sPend reqW1
      ⟨"connection reset"⟩ rfl rfl (Or.inr ⟨rfl, rfl⟩)
  refine ⟨a, ?_, ?_, h⟩
  · rw [b]; rfl
  · rw [c]; rfl

/-- C1 as stated is false: a pull whose pending fetch resolves to a page
with an empty item list but a present next-token (`9` here) yields the
end-of-sequence signal `Poll::Ready(None)` (src/cursor.rs line 377) instead
of continuing to the next page. -/
theorem empty_page_terminates_counterexample :
    sPend.loader = some reqW1 ∧
    resolveEmptyNext reqW1
      = Poll.Ready (Except.ok ⟨rlW, ⟨some 2, some 9, ([] : List Nat)⟩⟩) ∧
    (poll_next "count" "cursor" resolveEmptyNext sPend).1 = Poll.Ready none := by
  refine ⟨rfl, by decide, by decide⟩

/-- C1 amended. When the pending fetch resolves to a page with an empty item
list but a present next-token, that pull yields the end-of-sequence signal;
the engine nevertheless stores the page's next-token with a drained buffer
and no pending fetch, so a consumer that pulls again after the signal
triggers a fetch of the following page whose request carries the stored
next-token. -/
theorem empty_page_stores_token_for_next_pull (cn sn : String)
    (resolve resolve2 : Resolver α) (s : CursorIter α) (fut : FetchRequest)
    (resp : Response (CursorPage α)) (t : Int)
    (h1 : s.loader = some fut)
    (h2 : resolve fut = Poll.Ready (Except.ok resp))
    (h3 : resp.response.into_inner = [])
    (h4 : resp.response.next_cursor_id = some t) :
    (poll_next cn sn resolve s).1 = Poll.Ready none ∧
    (poll_next cn sn resolve s).2.next_cursor = some t ∧
    (poll_next cn sn resolve s).2.iter = some [] ∧
    (poll_next cn sn resolve s).2.loader = none ∧
    poll_next cn sn resolve2 (poll_next cn sn resolve s).2
      = poll_loader resolve2 (poll_next cn sn resolve s).2
          ((poll_next cn sn resolve s).2.call cn sn) ∧
    (sn, toString t) ∈ ((poll_next cn sn resolve s).2.call cn sn).params.params := by
  obtain ⟨l, tk, pb, ps, pc, nc, ld, it⟩ := s
  obtain rfl : ld = some fut := h1
  obtain ⟨rate, pg⟩ := resp
  obtain ⟨pp, pn, pit⟩ := pg
  obtain rfl : pit = [] := h3
  obtain rfl : pn = some t := h4
  refine ⟨?_, ?_, ?_, ?_, ?_, ?_⟩ <;>
    simp [poll_next, poll_loader, h2, CursorIter.call, ParamList.add_opt_param,
      ParamList.add_param]
  cases ps <;>
    simp [ParamList.add_opt_param, ParamList.add_param]

theorem empty_page_stores_token_for_next_pull_witness :
    (poll_next "count" "cursor" resolveEmptyNext sPend).1 = Poll.Ready none ∧
    (poll_next "count" "cursor" resolveEmptyNext sPend).2.next_cursor = some 9 ∧
    poll_next "count" "cursor" resolveTwo
        (poll_next "count" "cursor" resolveEmptyNext sPend).2
      = poll_loader resolveTwo (poll_next "count" "cursor" resolveEmptyNext sPend).2
          ((poll_next "count" "cursor" resolveEmptyNext sPend).2.call "count" "cursor") ∧
    ("cursor", toString (9 : Int))
      ∈ (((poll_next "count" "cursor" resolveEmptyNext sPend).2.call "count"
          "cursor")).params.params := by
  obtain ⟨a, b, c, d, e', f⟩ :=
    empty_page_stores_token_for_next_pull "count" "cursor" resolveEmptyNext
      resolveTwo sPend reqW1 ⟨rlW, ⟨some 2, some 9, []⟩⟩ 9 rfl (by decide) rfl rfl
  exact ⟨a, b, e', f⟩

/-- C9. When a fetch resolves to a page, the pull yields the page's first
item wrapped with exactly that page's rate-limit metadata, the buffer then
holds the remaining items each wrapped with that same metadata, and draining
pulls yield the buffered wrapped items verbatim — so every item of a page is
delivered with the page's own metadata, identical across the page. -/
theorem items_carry_page_metadata (cn sn : String) (resolve : Resolver α)
    (s : CursorIter α) (fut : FetchRequest) (resp : Response (CursorPage α))
    (h1 : s.loader = some fut)
    (h2 : resolve fut = Poll.Ready (Except.ok resp)) :
    (poll_next cn sn resolve s).2.iter
      = some ((resp.response.into_inner.drop 1).map
          (fun a => Response.mk resp.rate_limit_status a)) ∧
    (∀ a rest, resp.response.into_inner = a :: rest →
      (poll_next cn sn resolve s).1
        = Poll.Ready (some (Except.ok (Response.mk resp.rate_limit_status a)))) ∧
    (∀ (s' : CursorIter α) (r : Response α) (rest : List (Response α)),
      s'.loader = none → s'.iter = some (r :: rest) →
      poll_next cn sn resolve s'
        = (Poll.Ready (some (Except.ok r)), { s' with iter := some rest })) := by
  obtain ⟨l, tk, pb, ps, pc, nc, ld, it⟩ := s
  obtain rfl : ld = some fut := h1
  obtain ⟨rate, pg⟩ := resp
  obtain ⟨pp, pn, pit⟩ := pg
  refine ⟨?_, ?_, ?_⟩
  · cases pit with
    | nil => simp [poll_next, poll_loader, h2]
    | cons a rest => simp [poll_next, poll_loader, h2]
  · intro a rest hpit
    obtain rfl : pit = a :: rest := hpit
    simp [poll_next, poll_loader, h2]
  · intro s' r rest hld' hit'
    obtain ⟨l', tk', pb', ps', pc', nc', ld', it'⟩ := s'
    obtain rfl : ld' = none := hld'
    obtain rfl : it' = some (r :: rest) := hit'
    simp [poll_next]

theorem items_carry_page_metadata_witness :
    (poll_next "count" "cursor" resolveTwo sPend).1
      = Poll.Ready (some (Except.ok ⟨rlW2, 10⟩)) ∧
    (poll_next "count" "cursor" resolveTwo sPend).2.iter = some [⟨rlW2, 20⟩] := by
  obtain ⟨hbuf, hfst, hdrain⟩ :=
    items_carry_page_metadata "count" "cursor" resolveTwo sPend reqW1
      ⟨rlW2, ⟨some 2, some 11, [10, 20]⟩⟩ rfl (by decide)
  exact ⟨hfst 10 [20] rfl, by simpa using hbuf⟩

/-- One driver step that yields an item. -/
theorem runStream_yield_step (cn sn : String) (resolve : Resolver α) (f : Nat)
    (s s' : CursorIter α) (r : Response α)
    (h : poll_next cn sn resolve s = (Poll.Ready (some (Except.ok r)), s')) :
    runStream cn sn resolve (f + 1) s
      = StreamEvent.item r :: runStream cn sn resolve f s' := by
  simp only [runStream, h]

/-- One driver step that observes the end-of-sequence signal. -/
theorem runStream_end_step (cn sn : String) (resolve : Resolver α) (f : Nat)
    (s s' : CursorIter α)
    (h : poll_next cn sn resolve s = (Poll.Ready none, s')) :
    runStream cn sn resolve (f + 1) s = [StreamEvent.ended] := by
  simp only [runStream, h]

/-- Driving the engine against a scripted chain of pages, starting from a
state with no pending fetch, a drained buffer prefix `buf` still to be
yielded, and `next_cursor` pointing at the next scripted page, yields the
buffered items, then every scripted page's items in page order and in-page
order (each wrapped with its page's metadata), then the end-of-sequence
signal — provided every non-last page is nonempty. -/
theorem runStream_chain (cn sn link tok : String) (pb : Option ParamList)
    (ps : Option Int) (resolve : Resolver α) :
    ∀ (script : PageScript α) (buf : List (Response α)) (prev : Option Int)
      (fuel : Nat),
      buf.length + totalItems script < fuel →
      (script ≠ [] → (nextKey script).isSome = true) →
      ChainAt resolve (mkReq cn sn link tok pb ps) script →
      nonlastNonempty script →
      runStream cn sn resolve fuel
          ⟨link, tok, pb, ps, prev, nextKey script, none, some buf⟩
        = buf.map StreamEvent.item ++ expectedEvents script := by
  intro script
  induction script with
  | nil =>
      intro buf
      induction buf with
      | nil =>
          intro prev fuel hfuel hkey hch hnn
          cases fuel with
          | zero => omega
          | succ f =>
              have hpoll : poll_next cn sn resolve
                  (⟨link, tok, pb, ps, prev, nextKey ([] : PageScript α), none,
                    some ([] : List (Response α))⟩ : CursorIter α)
                  = (Poll.Ready none,
                    ⟨link, tok, pb, ps, prev, nextKey ([] : PageScript α), none,
                      some []⟩) := rfl
              rw [runStream_end_step cn sn resolve f _ _ hpoll]
              simp [expectedEvents]
      | cons r br ihb =>
          intro prev fuel hfuel hkey hch hnn
          cases fuel with
          | zero => omega
          | succ f =>
              have h2 : br.length + totalItems ([] : PageScript α) < f := by
                simp [totalItems] at hfuel ⊢
                omega
              have hpoll : poll_next cn sn resolve
                  (⟨link, tok, pb, ps, prev, nextKey ([] : PageScript α), none,
                    some (r :: br)⟩ : CursorIter α)
                  = (Poll.Ready (some (Except.ok r)),
                    ⟨link, tok, pb, ps, prev, nextKey ([] : PageScript α), none,
                      some br⟩) := rfl
              rw [runStream_yield_step cn sn resolve f _ _ _ hpoll]
              rw [ihb prev f h2 hkey hch hnn]
              simp
  | cons e rest ihs =>
      intro buf
      induction buf with
      | nil =>
          intro prev fuel hfuel hkey hch hnn
          obtain ⟨hres, hkey2, hch2⟩ := hch
          obtain ⟨t, ht⟩ : ∃ t, e.key = some t := by
            have hkc : (nextKey (e :: rest)).isSome = true := hkey (by simp)
            cases hk : e.key with
            | none => simp [nextKey, hk] at hkc
            | some t => exact ⟨t, rfl⟩
          cases fuel with
          | zero => omega
          | succ f =>
              have hkEq : nextKey (e :: rest) = some t := ht
              rw [ht] at hres
              rw [hkEq]
              have hbridge : poll_next cn sn resolve
                  (⟨link, tok, pb, ps, prev, some t, none,
                    some ([] : List (Response α))⟩ : CursorIter α)
                  = poll_loader resolve
                      (⟨link, tok, pb, ps, prev, some t, none, some []⟩ :
                        CursorIter α)
                      (mkReq cn sn link tok pb ps (some t)) := rfl
              cases hitems : e.items with
              | nil =>
                  cases rest with
                  | cons r rs => exact absurd hitems hnn.1
                  | nil =>
                      have hpl : poll_loader resolve
                          (⟨link, tok, pb, ps, prev, some t, none,
                            some ([] : List (Response α))⟩ : CursorIter α)
                          (mkReq cn sn link tok pb ps (some t))
                          = (Poll.Ready none,
                            ⟨link, tok, pb, ps, e.prev,
                              nextKey ([] : PageScript α), none, some []⟩) := by
                        simp [poll_loader, hres, hitems]
                      rw [runStream_end_step cn sn resolve f _ _
                        (hbridge.trans hpl)]
                      simp [expectedEvents, hitems]
              | cons a ri =>
                  have hfr : (ri.map (fun x => Response.mk e.rate x)).length
                      + totalItems rest < f := by
                    rw [totalItems_cons, hitems] at hfuel
                    simp at hfuel ⊢
                    omega
                  have hstep := ihs (ri.map (fun x => Response.mk e.rate x))
                    e.prev f hfr hkey2 hch2 (nonlastNonempty_tail e rest hnn)
                  have hpl : poll_loader resolve
                      (⟨link, tok, pb, ps, prev, some t, none,
                        some ([] : List (Response α))⟩ : CursorIter α)
                      (mkReq cn sn link tok pb ps (some t))
                      = (Poll.Ready (some (Except.ok (Response.mk e.rate a))),
                        ⟨link, tok, pb, ps, e.prev, nextKey rest, none,
                          some (List.map (fun x => Response.mk e.rate x) ri)⟩) := by
                    simp [poll_loader, hres, hitems]
                  rw [runStream_yield_step cn sn resolve f _ _ _
                    (hbridge.trans hpl)]
                  rw [hstep]
                  simp [expectedEvents_cons, hitems, List.map_map,
                    Function.comp]
      | cons r br ihb =>
          intro prev fuel hfuel hkey hch hnn
          cases fuel with
          | zero => omega
          | succ f =>
              have h2 : br.length + totalItems (e :: rest) < f := by
                simp at hfuel ⊢
                omega
              have hpoll : poll_next cn sn resolve
                  (⟨link, tok, pb, ps, prev, nextKey (e :: rest), none,
                    some (r :: br)⟩ : CursorIter α)
                  = (Poll.Ready (some (Except.ok r)),
                    ⟨link, tok, pb, ps, prev, nextKey (e :: rest), none,
                      some br⟩) := rfl
              rw [runStream_yield_step cn sn resolve f _ _ _ hpoll]
              rw [ihb prev f h2 hkey hch hnn]
              simp

/-- C4 as stated is false: for the chain `scriptW` — an empty first page
carrying a present next-token, followed by a one-item last page — pulling
from a freshly constructed engine yields the end-of-sequence signal
immediately (the empty page terminates the stream, src/cursor.rs line 377),
not the concatenation `[42]` of the pages' items followed by the signal. -/
theorem forward_progress_empty_page_counterexample :
    scriptW ≠ [] ∧
    nextKey scriptW = none ∧
    ChainAt resolveW (mkReq "count" "cursor" "lnk" "tk" none none) scriptW ∧
    totalItems scriptW < 2 ∧
    runStream "count" "cursor" resolveW 2 (CursorIter.new "lnk" "tk" none none)
      = [StreamEvent.ended] ∧
    expectedEvents scriptW
      = [StreamEvent.item ⟨rlW, 42⟩, StreamEvent.ended] ∧
    ([StreamEvent.ended] : List (StreamEvent Nat))
      ≠ [StreamEvent.item ⟨rlW, 42⟩, StreamEvent.ended] := by
  refine ⟨by decide, by decide, ?_, by decide, by decide, by decide, by decide⟩
  simp only [ChainAt, nextKey, scriptW]
  exact ⟨by decide, by decide, by decide, by decide, trivial⟩

/-- C4 amended. For every freshly constructed engine and every chain of
pages in which each page except the last carries a present next-token *and
a nonempty item list* (the last page's next-token being absent), repeatedly
pulling from the sequence yields exactly the concatenation of all pages'
items — in page order, in-page order, each wrapped with its page's
metadata — followed by a normal end-of-sequence signal. (Without the
nonemptiness amendment an empty non-last page cuts the sequence short, as
the counterexample shows.) -/
theorem forward_progress_nonempty_pages (cn sn link tok : String)
    (pb : Option ParamList) (ps : Option Int) (resolve : Resolver α)
    (script : PageScript α) (fuel : Nat)
    (h0 : script ≠ [])
    (hk0 : nextKey script = none)
    (hch : ChainAt resolve (mkReq cn sn link tok pb ps) script)
    (hnn : nonlastNonempty script)
    (hfuel : totalItems script < fuel) :
    runStream cn sn resolve fuel (CursorIter.new link tok pb ps)
      = expectedEvents script := by
  cases script with
  | nil => exact absurd rfl h0
  | cons e rest =>
      obtain ⟨hres, hkey2, hch2⟩ := hch
      have hek : e.key = none := hk0
      rw [hek] at hres
      cases fuel with
      | zero => omega
      | succ f =>
          have hbridge : poll_next cn sn resolve
              (CursorIter.new link tok pb ps : CursorIter α)
              = poll_loader resolve (CursorIter.new link tok pb ps)
                  (mkReq cn sn link tok pb ps none) := rfl
          cases hitems : e.items with
          | nil =>
              cases rest with
              | cons r rs => exact absurd hitems hnn.1
              | nil =>
                  have hpl : poll_loader resolve
                      (CursorIter.new link tok pb ps : CursorIter α)
                      (mkReq cn sn link tok pb ps none)
                      = (Poll.Ready none,
                        ⟨link, tok, pb, ps, e.prev,
                          nextKey ([] : PageScript α), none, some []⟩) := by
                    simp [poll_loader, hres, hitems, CursorIter.new]
                  rw [runStream_end_step cn sn resolve f _ _
                    (hbridge.trans hpl)]
                  simp [expectedEvents, hitems]
          | cons a ri =>
              have hfr : (ri.map (fun x => Response.mk e.rate x)).length
                  + totalItems rest < f := by
                rw [totalItems_cons, hitems] at hfuel
                simp at hfuel ⊢
                omega
              have hstep := runStream_chain cn sn link tok pb ps resolve rest
                (ri.map (fun x => Response.mk e.rate x)) e.prev f hfr hkey2
                hch2 (nonlastNonempty_tail e rest hnn)
              have hpl : poll_loader resolve
                  (CursorIter.new link tok pb ps : CursorIter α)
                  (mkReq cn sn link tok pb ps none)
                  = (Poll.Ready (some (Except.ok (Response.mk e.rate a))),
                    ⟨link, tok, pb, ps, e.prev, nextKey rest, none,
                      some (List.map (fun x => Response.mk e.rate x) ri)⟩) := by
                simp [poll_loader, hres, hitems, CursorIter.new]
              rw [runStream_yield_step cn sn resolve f _ _ _
                (hbridge.trans hpl)]
              rw [hstep]
              simp [expectedEvents_cons, hitems, List.map_map, Function.comp]

theorem forward_progress_nonempty_pages_witness :
    runStream "count" "cursor" resolveV 4 (CursorIter.new "lnk" "tk" none none)
      = expectedEvents scriptV := by
  refine forward_progress_nonempty_pages "count" "cursor" "lnk" "tk" none none
    resolveV scriptV 4 (by decide) (by decide) ?_ ?_ (by decide)
  · simp only [ChainAt, nextKey, scriptV]
    exact ⟨by decide, by decide, by decide, by decide, trivial⟩
  · simp only [nonlastNonempty, scriptV]
    exact ⟨by decide, trivial⟩

end EggMode
